import Mathlib

/-
Verification development for the food-delivery simulator.

The Python sources (order_system.py, economic_system.py, game_time_system.py,
game_core.py, gui_system.py) are embedded shallowly:

* Python floats that hold money and probabilities are modelled as rationals.
* Python randomness is derandomized: each call of random.random() or
  random.uniform(a, b) becomes an explicit sample value passed as an argument.
* Mutation of the shared game state becomes explicit state passing: a method
  that mutates self returns the updated state.
* Python round(x, 2) is modelled by round2 below.
-/

namespace FoodSim

/-- Rounding to two decimal places, modelling the round(x, 2) calls of the
source on exact rational values. -/
def round2 (x : ℚ) : ℚ := (round (x * 100) : ℤ) / 100

/-! ## game_time_system.py -/

/-- GameTimeManager.is_peak_hour (game_time_system.py lines 95–99): the hour
component of the current game time is tested against three inclusive bands. -/
def is_peak_hour (hour : ℕ) : Bool :=
  decide ((7 ≤ hour ∧ hour ≤ 9) ∨ (11 ≤ hour ∧ hour ≤ 13) ∨ (17 ≤ hour ∧ hour ≤ 19))

/-! ## economic_system.py : LotterySystem -/

/-- LotterySystem._calculate_double_color_ball_prize (economic_system.py lines
365–383).  The consecutive-loss counter self.consecutive_losses is passed
explicitly. -/
def calculate_double_color_ball_prize (consecutive_losses : ℕ)
    (red_matches : ℕ) (blue_match : Bool) : ℚ :=
  let bonus_multiplier : ℚ := 1 + (consecutive_losses : ℚ) * (1/10)
  if red_matches = 6 ∧ blue_match then 5000000
  else if red_matches = 6 then 1000000
  else if red_matches = 5 ∧ blue_match then 3000 * bonus_multiplier
  else if red_matches = 5 ∨ (red_matches = 4 ∧ blue_match) then 200 * bonus_multiplier
  else if red_matches = 4 ∨ (red_matches = 3 ∧ blue_match) then 10 * bonus_multiplier
  else if blue_match then 5 * bonus_multiplier
  else 0

/-- The update of self.consecutive_losses performed by
LotterySystem._play_double_color_ball (economic_system.py lines 351–354):
reset to 0 on a winning play, incremented otherwise. -/
def update_consecutive_losses (consecutive_losses : ℕ) (prize : ℚ) : ℕ :=
  if 0 < prize then 0 else consecutive_losses + 1

/-! ## economic_system.py : ExpenseManager -/

/-- MonthlyExpense (economic_system.py lines 59–76). -/
structure MonthlyExpense where
  rent : ℚ
  food : ℚ
  utilities : ℚ
  phone : ℚ
  transportation : ℚ
  medical : ℚ
  entertainment : ℚ
  debt_payment : ℚ
deriving DecidableEq

/-- MonthlyExpense.total. -/
def MonthlyExpense.total (e : MonthlyExpense) : ℚ :=
  e.rent + e.food + e.utilities + e.phone + e.transportation + e.medical +
    e.entertainment + e.debt_payment

/-- The slice of mutable state read and written by
ExpenseManager.process_monthly_payment: the expense table, the delivery-coin balance of the player (game_state.finances.delivery_coins) and the credit
score (game_state.attributes.credit_score). -/
structure ExpenseState where
  monthly_expenses : MonthlyExpense
  delivery_coins : ℚ
  credit_score : ℤ
deriving DecidableEq

/-- The dictionary returned by process_monthly_payment.  Keys that a given
branch of the source does not set keep their default here.  The extra field
clock_reset records whether the branch executed the assignment
self.last_payment_date = current_time. -/
structure MonthlyPaymentResult where
  processed : Bool := false
  total_expense : ℚ := 0
  rent_increased : Bool := false
  old_rent : ℚ := 0
  new_rent : ℚ := 0
  increase_rate : ℚ := 0
  success : Bool := false
  credit_penalty : Bool := false
  clock_reset : Bool := false
deriving DecidableEq

/-- ExpenseManager.process_monthly_payment (economic_system.py lines 469–514).
days_since_last is the day count (current_time - last_payment_date).days;
rent_u is the sample of random.random() compared against 0.1, and rate the
sample of random.uniform(0.05, 0.15), both only consumed when the time gate
passes. -/
def process_monthly_payment (st : ExpenseState) (days_since_last : ℕ)
    (rent_u : ℚ) (rate : ℚ) : ExpenseState × MonthlyPaymentResult :=
  if days_since_last < 30 then
    (st, { processed := false })
  else
    if rent_u < 1/10 then
      ({ st with monthly_expenses :=
           { st.monthly_expenses with rent := st.monthly_expenses.rent * (1 + rate) } },
       { processed := true,
         total_expense :=
           { st.monthly_expenses with rent := st.monthly_expenses.rent * (1 + rate) }.total,
         rent_increased := true,
         old_rent := st.monthly_expenses.rent,
         new_rent := st.monthly_expenses.rent * (1 + rate),
         increase_rate := rate * 100 })
    else if st.monthly_expenses.total ≤ st.delivery_coins then
      ({ st with delivery_coins := st.delivery_coins - st.monthly_expenses.total },
       { processed := true, total_expense := st.monthly_expenses.total, success := true,
         clock_reset := true })
    else
      ({ st with credit_score := st.credit_score - 20 },
       { processed := true, total_expense := st.monthly_expenses.total, success := false,
         credit_penalty := true })

/-- The initial expense table of ExpenseManager.__init__ (economic_system.py
lines 449–458). -/
def initial_monthly_expenses : MonthlyExpense :=
  { rent := 2000, food := 800, utilities := 200, phone := 100,
    transportation := 300, medical := 0, entertainment := 200, debt_payment := 1000 }

/-- A concrete expense state with an ample coin balance, used to exercise the
rent-increase branch. -/
def expense_state_rich : ExpenseState :=
  { monthly_expenses := initial_monthly_expenses, delivery_coins := 100000, credit_score := 100 }

/-! ## game_core.py : the player state -/

/-- WeatherType (game_core.py lines 14–20). -/
inductive WeatherType where
  | SUNNY | RAINY | STORMY | SNOWY | FOGGY | TYPHOON
deriving DecidableEq

/-- DistrictType (game_core.py lines 22–26). -/
inductive DistrictType where
  | ANT_NEST | WUTONG_LANE | STARTUP_PARK | JADE_BAY
deriving DecidableEq

/-- CustomerType (game_core.py lines 28–33). -/
inductive CustomerType where
  | PROGRAMMER_SHY | RICH_IMPATIENT | DIFFICULT_ELDERLY | NORMAL | VIP
deriving DecidableEq

/-- GameStats (game_core.py lines 35–43). -/
structure GameStats where
  total_orders : ℕ := 0
  successful_deliveries : ℕ := 0
  complaints : ℕ := 0
  five_star_ratings : ℕ := 0
  total_earnings : ℚ := 0
  total_tips : ℚ := 0
deriving DecidableEq

/-- PlayerAttributes (game_core.py lines 45–54).  The credit score is a plain
Python int and may go negative, hence an integer here. -/
structure PlayerAttributes where
  direction_sense : ℕ := 1
  emotional_intelligence : ℕ := 1
  education_level : ℕ := 1
  stamina : ℕ := 100
  credit_score : ℤ := 100
  experience : ℕ := 0
  level : ℕ := 1
deriving DecidableEq

/-- FinancialStatus (game_core.py lines 56–64). -/
structure FinancialStatus where
  delivery_coins : ℚ := 100
  credit_points : ℤ := 100
  debt : ℚ := 50000
  monthly_rent : ℚ := 2000
  savings : ℚ := 0
  medical_insurance : Bool := false
deriving DecidableEq

/-- DeliveryEquipment (game_core.py lines 66–72). -/
structure DeliveryEquipment where
  battery_capacity : ℕ := 100
  rain_cover : Bool := false
  cargo_rack_reinforced : Bool := false
  uniform_quality : String := "basic"
deriving DecidableEq

/-- GameState (game_core.py lines 74–87), restricted to the fields the
simulation subsystems read or write. -/
structure GameState where
  weather : WeatherType := .SUNNY
  attributes : PlayerAttributes := {}
  finances : FinancialStatus := {}
  equipment : DeliveryEquipment := {}
  stats : GameStats := {}
  fatigue_level : ℕ := 0
  current_location : DistrictType := .ANT_NEST
  is_online : Bool := true
deriving DecidableEq

/-! ## order_system.py -/

/-- OrderPriority (order_system.py lines 12–15). -/
inductive OrderPriority where
  | S_LEVEL | A_LEVEL | D_LEVEL
deriving DecidableEq

/-- Order (order_system.py lines 24–42), with the fields that delivery
resolution reads. -/
structure Order where
  order_id : String
  restaurant_name : String
  customer_name : String
  pickup_district : DistrictType
  delivery_district : DistrictType
  customer_type : CustomerType
  priority : OrderPriority
  base_fee : ℚ
  distance_km : ℚ
  estimated_time : ℕ
  weather_bonus : ℚ := 0
  peak_hour_bonus : ℚ := 0
  complaint_probability : ℚ := 0
  tip_probability : ℚ := 0
deriving DecidableEq

/-- The event-type tags used by the string-typed event dicts of the source.
DeliverySimulator._handle_random_events produces food_damage, accident,
battery_dead and time_bonus; the dispatch loop of simulate_delivery
additionally tests for equipment_damage, a tag no producer emits. -/
inductive EventType where
  | food_damage | accident | battery_dead | time_bonus | equipment_damage
deriving DecidableEq

/-- An event dict appended by DeliverySimulator._handle_random_events.  Keys
absent from a given dict keep their default. -/
structure DeliveryEvent where
  etype : EventType
  cost : ℚ := 0
  bonus : ℚ := 0
  time_penalty : ℕ := 0
deriving DecidableEq

/-- The result dict of DeliverySimulator.simulate_delivery (order_system.py
lines 240–247). -/
structure DeliveryResult where
  success : Bool := true
  earnings : ℚ := 0
  tip : ℚ := 0
  complaint : Bool := false
  experience_gained : ℕ := 0
  events : List DeliveryEvent := []
deriving DecidableEq

/-- The random samples drawn during one call of simulate_delivery, passed
explicitly: each u field is the value of one random.random() call, and
tip_amount is the already-rounded sample of round(random.uniform(2, 20), 2). -/
structure DeliveryRolls where
  food_damage_u : ℚ
  accident_u : ℚ
  battery_u : ℚ
  time_bonus_u : ℚ
  tip_u : ℚ
  tip_amount : ℚ
  complaint_u : ℚ
deriving DecidableEq

/-- DeliverySimulator._handle_random_events (order_system.py lines 292–329). -/
def handle_random_events (gs : GameState) (o : Order) (r : DeliveryRolls) :
    List DeliveryEvent :=
  (if (gs.weather = .RAINY ∨ gs.weather = .STORMY) ∧ r.food_damage_u < 3/10 ∧
      gs.equipment.rain_cover = false
   then [{ etype := .food_damage, cost := o.base_fee * (1/2) }] else []) ++
  (if r.accident_u < 1/20
   then [{ etype := .accident, cost := 500 }] else []) ++
  (if r.battery_u < 1/10 ∧ gs.equipment.battery_capacity < 50
   then [{ etype := .battery_dead, time_penalty := 20 }] else []) ++
  (if r.time_bonus_u < 1/5 ∧ 3 < gs.attributes.direction_sense
   then [{ etype := .time_bonus, bonus := 3 }] else [])

/-- The event dispatch loop of simulate_delivery (order_system.py lines
256–264): an accident returns early (modelled by none), an equipment_damage
event subtracts its cost, a time_bonus event adds its bonus, and any other
event type — including food_damage — is skipped. -/
def process_delivery_events : List DeliveryEvent → ℚ → Option ℚ
  | [], total_earnings => some total_earnings
  | e :: rest, total_earnings =>
    match e.etype with
    | .accident => none
    | .equipment_damage => process_delivery_events rest (total_earnings - e.cost)
    | .time_bonus => process_delivery_events rest (total_earnings + e.bonus)
    | _ => process_delivery_events rest total_earnings

/-- DeliverySimulator._calculate_experience (order_system.py lines 331–345). -/
def calculate_experience (o : Order) (weather : WeatherType) : ℕ :=
  (match o.priority with
   | .S_LEVEL => 50
   | .A_LEVEL => 30
   | .D_LEVEL => 15) +
  (if weather = .RAINY ∨ weather = .STORMY then 10 else 0)

/-- DeliverySimulator.simulate_delivery (order_system.py lines 238–290).  The
source mutates self.game_state in the complaint branch; the updated state is
returned alongside the result dict. -/
def simulate_delivery (gs : GameState) (o : Order) (r : DeliveryRolls) :
    DeliveryResult × GameState :=
  let events := handle_random_events gs o r
  match process_delivery_events events (o.base_fee + o.weather_bonus + o.peak_hour_bonus) with
  | none =>
    ({ success := false, earnings := 0, tip := 0, complaint := false,
       experience_gained := 0, events := events }, gs)
  | some total_earnings =>
    let tip := if r.tip_u < o.tip_probability then r.tip_amount else 0
    let complaint_chance :=
      if 5 < gs.attributes.emotional_intelligence then o.complaint_probability * (4/5)
      else o.complaint_probability
    if r.complaint_u < complaint_chance then
      ({ success := true, earnings := round2 (total_earnings + tip), tip := tip,
         complaint := true, experience_gained := calculate_experience o gs.weather,
         events := events },
       { gs with attributes :=
           { gs.attributes with credit_score := gs.attributes.credit_score - 5 } })
    else
      ({ success := true, earnings := round2 (total_earnings + tip), tip := tip,
         complaint := false, experience_gained := calculate_experience o gs.weather,
         events := events },
       { gs with
           attributes := { gs.attributes with credit_score := gs.attributes.credit_score + 1 },
           stats := { gs.stats with five_star_ratings := gs.stats.five_star_ratings + 1 } })

/-- The state update performed by the caller start_delivery (gui_system.py
lines 803–818) after a successful delivery resolution: earnings are credited,
counters and experience advance, and reaching 100 experience levels up and
resets experience to 0. -/
def start_delivery_apply (gs : GameState) (result : DeliveryResult) : GameState :=
  if result.success then
    let gs1 :=
      { gs with
          finances := { gs.finances with
            delivery_coins := gs.finances.delivery_coins + result.earnings },
          stats := { gs.stats with
            successful_deliveries := gs.stats.successful_deliveries + 1,
            total_earnings := gs.stats.total_earnings + result.earnings,
            total_tips := gs.stats.total_tips + result.tip },
          attributes := { gs.attributes with
            experience := gs.attributes.experience + result.experience_gained } }
    if 100 ≤ gs1.attributes.experience then
      { gs1 with attributes :=
          { gs1.attributes with level := gs1.attributes.level + 1, experience := 0 } }
    else gs1
  else gs

/-- A concrete rainy-day scenario: no rain cover, the food-damage roll fires,
every other roll misses. -/
def rainy_game_state : GameState :=
  { weather := .RAINY }

/-- A concrete A-priority order with base fee 10 and weather bonus 3. -/
def rainy_order : Order :=
  { order_id := "ORDER_100001", restaurant_name := "LanzhouLamian",
    customer_name := "ZhangSan", pickup_district := .ANT_NEST,
    delivery_district := .WUTONG_LANE, customer_type := .NORMAL,
    priority := .A_LEVEL, base_fee := 10, distance_km := 3,
    estimated_time := 19, weather_bonus := 3, peak_hour_bonus := 0,
    complaint_probability := 0, tip_probability := 0 }

/-- Samples under which only the food-damage event fires. -/
def rainy_rolls : DeliveryRolls :=
  { food_damage_u := 0, accident_u := 1, battery_u := 1, time_bonus_u := 1,
    tip_u := 1, tip_amount := 10, complaint_u := 1 }

/-! ## economic_system.py : InvestmentPortfolio -/

/-- StockPosition (economic_system.py lines 36–57). -/
structure StockPosition where
  symbol : String
  shares : ℕ
  avg_cost : ℚ
  current_price : ℚ
  leverage : ℚ := 1
deriving DecidableEq

/-- StockPosition.market_value. -/
def StockPosition.market_value (p : StockPosition) : ℚ :=
  p.shares * p.current_price * p.leverage

/-- StockPosition.profit_loss. -/
def StockPosition.profit_loss (p : StockPosition) : ℚ :=
  (p.current_price - p.avg_cost) * p.shares * p.leverage

/-- StockPosition.profit_loss_percent: the unrealized gain or loss of the
position as a percentage of the average cost, 0 when the cost basis is 0; the
leverage factor does not enter. -/
def StockPosition.profit_loss_percent (p : StockPosition) : ℚ :=
  if p.avg_cost = 0 then 0 else (p.current_price - p.avg_cost) / p.avg_cost * 100

/-- One entry of InvestmentPortfolio.transaction_history.  The Python dicts
carry different keys per action; keys a given action does not set keep their
default here (timestamps and display messages are not modelled). -/
structure TransactionRecord where
  action : String
  symbol : String
  shares : ℕ
  price : ℚ
  leverage : ℚ := 0
  cost : ℚ := 0
  revenue : ℚ := 0
  profit : ℚ := 0
deriving DecidableEq

/-- The mutable state of InvestmentPortfolio (economic_system.py lines
169–177): the positions dict (a list keyed by symbol, insertion ordered), the
delivery-coin balance of the player reached through self.game_state.finances, and
the transaction history. -/
structure InvestmentPortfolio where
  stock_positions : List StockPosition
  delivery_coins : ℚ
  transaction_history : List TransactionRecord
deriving DecidableEq

/-- InvestmentPortfolio.max_leverage. -/
def max_leverage : ℚ := 5

/-- InvestmentPortfolio.margin_call_threshold. -/
def margin_call_threshold : ℚ := 3/10

/-- Dictionary lookup self.stock_positions[symbol] (first match wins; symbols
are unique because insertion only appends when the symbol is absent). -/
def find_position (positions : List StockPosition) (symbol : String) :
    Option StockPosition :=
  positions.find? (fun p => decide (p.symbol = symbol))

/-- Dictionary update self.stock_positions[symbol] = q for a key already
present: the entry with that symbol is replaced. -/
def set_position (positions : List StockPosition) (symbol : String)
    (q : StockPosition) : List StockPosition :=
  positions.map (fun p => if p.symbol = symbol then q else p)

/-- Dictionary deletion del self.stock_positions[symbol]. -/
def remove_position (positions : List StockPosition) (symbol : String) :
    List StockPosition :=
  positions.filter (fun p => decide (¬ p.symbol = symbol))

/-- InvestmentPortfolio.buy_stock (economic_system.py lines 179–219).
Returns the updated portfolio and the success flag of the result dict. -/
def buy_stock (pf : InvestmentPortfolio) (symbol : String) (shares : ℕ)
    (price : ℚ) (leverage : ℚ) : InvestmentPortfolio × Bool :=
  if max_leverage < leverage then (pf, false)
  else if pf.delivery_coins < shares * price / leverage then (pf, false)
  else
    let cost := shares * price / leverage
    let positions :=
      match find_position pf.stock_positions symbol with
      | some position =>
        set_position pf.stock_positions symbol
          { position with
              avg_cost := (position.avg_cost * position.shares + price * shares) /
                (position.shares + shares),
              shares := position.shares + shares }
      | none =>
        pf.stock_positions ++
          [{ symbol := symbol, shares := shares, avg_cost := price,
             current_price := price, leverage := leverage }]
    ({ stock_positions := positions,
       delivery_coins := pf.delivery_coins - cost,
       transaction_history := pf.transaction_history ++
         [{ action := "buy", symbol := symbol, shares := shares, price := price,
            leverage := leverage, cost := cost }] }, true)

/-- InvestmentPortfolio.sell_stock (economic_system.py lines 221–259).
Returns the updated portfolio and, on success, the rounded realized profit of
the result dict; none models the failure dicts. -/
def sell_stock (pf : InvestmentPortfolio) (symbol : String) (shares : ℕ)
    (price : ℚ) : InvestmentPortfolio × Option ℚ :=
  match find_position pf.stock_positions symbol with
  | none => (pf, none)
  | some position =>
    if position.shares < shares then (pf, none)
    else
      let revenue := shares * price * position.leverage
      let profit := (price - position.avg_cost) * shares * position.leverage
      let positions :=
        if shares = position.shares then remove_position pf.stock_positions symbol
        else set_position pf.stock_positions symbol
          { position with shares := position.shares - shares }
      ({ stock_positions := positions,
         delivery_coins := pf.delivery_coins + revenue,
         transaction_history := pf.transaction_history ++
           [{ action := "sell", symbol := symbol, shares := shares, price := price,
              leverage := position.leverage, revenue := revenue, profit := profit }] },
       some (round2 profit))

/-- InvestmentPortfolio._force_liquidation (economic_system.py lines
280–293): sell the whole position at its current price through the sell path
and append a distinct liquidation record. -/
def force_liquidation (pf : InvestmentPortfolio) (symbol : String)
    (position : StockPosition) : InvestmentPortfolio :=
  let pf2 := (sell_stock pf symbol position.shares position.current_price).1
  { pf2 with transaction_history := pf2.transaction_history ++
      [{ action := "liquidation", symbol := symbol, shares := position.shares,
         price := position.current_price }] }

/-- InvestmentPortfolio._check_margin_call (economic_system.py lines
271–278): iterate over a snapshot of the positions and force-liquidate every
leveraged position whose loss fraction reaches the threshold. -/
def check_margin_call (pf : InvestmentPortfolio) : InvestmentPortfolio :=
  pf.stock_positions.foldl
    (fun acc position =>
      if 1 < position.leverage ∧
         margin_call_threshold ≤ -position.profit_loss_percent / 100 then
        force_liquidation acc position.symbol position
      else acc)
    pf

/-- InvestmentPortfolio.update_positions (economic_system.py lines 261–269):
refresh the current price of every position from the market, then check margin
calls.  The market is a partial price map. -/
def update_positions (pf : InvestmentPortfolio) (prices : String → Option ℚ) :
    InvestmentPortfolio :=
  check_margin_call
    { pf with stock_positions := pf.stock_positions.map (fun p =>
        match prices p.symbol with
        | some price => { p with current_price := price }
        | none => p) }

/-- A fresh portfolio with balance 100, as in the round-trip scenario of the
spec. -/
def empty_portfolio : InvestmentPortfolio :=
  { stock_positions := [], delivery_coins := 100, transaction_history := [] }

/-- An existing 10-share position bought at 100 with leverage 3. -/
def position_a : StockPosition :=
  { symbol := "000001", shares := 10, avg_cost := 100, current_price := 100,
    leverage := 3 }

/-- A portfolio holding position_a with balance 1000. -/
def portfolio_a : InvestmentPortfolio :=
  { stock_positions := [position_a], delivery_coins := 1000, transaction_history := [] }

end FoodSim

/-! ## Claims about the game clock and the lottery -/

open FoodSim

/-- Claim C9 counterexample: the peak-hour predicate is true at nine distinct
clock hours of the day, not six; in particular hour 9 and hour 13 are peak. -/
theorem C9_peak_hours_counterexample :
    is_peak_hour 9 = true ∧ is_peak_hour 13 = true ∧
    ¬ ((List.range 24).filter is_peak_hour).length = 6 := by
  decide

/-- Claim C9 (amended): the peak-hour predicate is true during exactly three
fixed three-hour inclusive bands — hours 7–9, 11–13 and 17–19, nine distinct
peak clock hours in total — and false at every other hour of the day. -/
theorem C9_peak_hours_amended :
    (List.range 24).filter is_peak_hour = [7, 8, 9, 11, 12, 13, 17, 18, 19] := by
  decide

/-- Claim C8: in the Double-Color-Ball lottery a ticket matching all 6 red
numbers and the blue number always wins exactly 5000000 regardless of the
consecutive-loss streak, a ticket matching 0 red numbers and not the blue
number always wins 0, the consecutive-loss bonus multiplier 1 + losses/10 is
applied to every prize tier except the two jackpot tiers, and the counter
resets to 0 on a winning play and increments on a losing play. -/
theorem C8_double_color_ball_prizes (l : ℕ) :
    calculate_double_color_ball_prize l 6 true = 5000000 ∧
    calculate_double_color_ball_prize l 6 false = 1000000 ∧
    calculate_double_color_ball_prize l 5 true = 3000 * (1 + (l : ℚ) * (1/10)) ∧
    calculate_double_color_ball_prize l 5 false = 200 * (1 + (l : ℚ) * (1/10)) ∧
    calculate_double_color_ball_prize l 4 true = 200 * (1 + (l : ℚ) * (1/10)) ∧
    calculate_double_color_ball_prize l 4 false = 10 * (1 + (l : ℚ) * (1/10)) ∧
    calculate_double_color_ball_prize l 3 true = 10 * (1 + (l : ℚ) * (1/10)) ∧
    calculate_double_color_ball_prize l 2 true = 5 * (1 + (l : ℚ) * (1/10)) ∧
    calculate_double_color_ball_prize l 1 true = 5 * (1 + (l : ℚ) * (1/10)) ∧
    calculate_double_color_ball_prize l 0 true = 5 * (1 + (l : ℚ) * (1/10)) ∧
    calculate_double_color_ball_prize l 3 false = 0 ∧
    calculate_double_color_ball_prize l 2 false = 0 ∧
    calculate_double_color_ball_prize l 1 false = 0 ∧
    calculate_double_color_ball_prize l 0 false = 0 ∧
    update_consecutive_losses l (calculate_double_color_ball_prize l 6 true) = 0 ∧
    update_consecutive_losses l (calculate_double_color_ball_prize l 0 false) = l + 1 := by
  refine ⟨?_, ?_, ?_, ?_, ?_, ?_, ?_, ?_, ?_, ?_, ?_, ?_, ?_, ?_, ?_, ?_⟩ <;>
    simp [calculate_double_color_ball_prize, update_consecutive_losses]

/-! ## Claims about the expense manager -/

/-- Claim C2: when monthly billing triggers (30 days elapsed, ample funds) and
the rent-increase event fires, the source raises the rent by the sampled rate
and returns immediately: the delivery-coin balance is NOT charged the new
total (it stays 100000 although the result reports a total of 4800), and the
billing clock is not reset.  This contradicts the claim that billing still
proceeds this cycle using the new total. -/
theorem C2_rent_increase_skips_charge :
    (process_monthly_payment expense_state_rich 30 0 (1/10)).2.rent_increased = true ∧
    (process_monthly_payment expense_state_rich 30 0 (1/10)).1.monthly_expenses.rent = 2200 ∧
    (process_monthly_payment expense_state_rich 30 0 (1/10)).2.total_expense = 4800 ∧
    (process_monthly_payment expense_state_rich 30 0 (1/10)).1.delivery_coins = 100000 ∧
    (process_monthly_payment expense_state_rich 30 0 (1/10)).2.clock_reset = false := by
  norm_num [process_monthly_payment, expense_state_rich, initial_monthly_expenses,
    MonthlyExpense.total]

/-- Claim C4: monthly billing is a no-op (no charge, no penalty, no state
change) when fewer than 30 days have elapsed since the last billing; when it
triggers with insufficient funds (and the rent-increase event does not fire)
it subtracts exactly 20 from the credit score, leaves the delivery-coin
balance and the expense table unchanged, and does not reset the billing
clock. -/
theorem C4_monthly_billing_gate_and_penalty (st : ExpenseState) (d : ℕ) (u rate : ℚ) :
    (d < 30 → process_monthly_payment st d u rate = (st, { processed := false })) ∧
    (30 ≤ d → 1/10 ≤ u → st.delivery_coins < st.monthly_expenses.total →
      process_monthly_payment st d u rate =
        ({ st with credit_score := st.credit_score - 20 },
         { processed := true, total_expense := st.monthly_expenses.total,
           success := false, credit_penalty := true })) := by
  constructor
  · intro h
    unfold process_monthly_payment
    rw [if_pos h]
  · intro h1 h2 h3
    unfold process_monthly_payment
    rw [if_neg (Nat.not_lt.mpr h1), if_neg (not_lt.mpr h2), if_neg (not_le.mpr h3)]

/-- Claim C4 witness: both branches of the billing theorem at concrete
inputs (a balance of 10 against a 4600 total). -/
theorem C4_monthly_billing_witness :
    process_monthly_payment
        { monthly_expenses := initial_monthly_expenses, delivery_coins := 10, credit_score := 100 }
        29 (1/2) (1/10) =
      ({ monthly_expenses := initial_monthly_expenses, delivery_coins := 10, credit_score := 100 },
       { processed := false }) ∧
    process_monthly_payment
        { monthly_expenses := initial_monthly_expenses, delivery_coins := 10, credit_score := 100 }
        30 (1/2) (1/10) =
      ({ monthly_expenses := initial_monthly_expenses, delivery_coins := 10, credit_score := 80 },
       { processed := true, total_expense := 4600, success := false, credit_penalty := true }) := by
  constructor
  · exact (C4_monthly_billing_gate_and_penalty _ 29 (1/2) (1/10)).1 (by decide)
  · have h := (C4_monthly_billing_gate_and_penalty
      { monthly_expenses := initial_monthly_expenses, delivery_coins := 10, credit_score := 100 }
      30 (1/2) (1/10)).2 (by decide) (by norm_num)
      (by norm_num [initial_monthly_expenses, MonthlyExpense.total])
    norm_num [initial_monthly_expenses, MonthlyExpense.total] at h
    exact h

/-! ## Claims about delivery resolution -/

/-- Helper: under an accident sample below 0.05, the produced event list makes
the dispatch loop return none. -/
theorem process_events_of_rolls_none (gs : GameState) (o : Order) (r : DeliveryRolls)
    (h : r.accident_u < 1/20) (t : ℚ) :
    process_delivery_events (handle_random_events gs o r) t = none := by
  unfold handle_random_events
  rw [if_pos h]
  by_cases hf : (gs.weather = .RAINY ∨ gs.weather = .STORMY) ∧ r.food_damage_u < 3/10 ∧
      gs.equipment.rain_cover = false
  · rw [if_pos hf]
    simp [process_delivery_events]
  · rw [if_neg hf]
    simp [process_delivery_events]

/-- Claim C3: whenever the accident event fires, delivery resolution returns
earnings 0, success false, a zero tip and zero experience, and performs no
tip or complaint roll: the game state — credit score and five-star counter
included — is returned unchanged. -/
theorem C3_accident_short_circuit (gs : GameState) (o : Order) (r : DeliveryRolls)
    (h : r.accident_u < 1/20) :
    (simulate_delivery gs o r).1.success = false ∧
    (simulate_delivery gs o r).1.earnings = 0 ∧
    (simulate_delivery gs o r).1.tip = 0 ∧
    (simulate_delivery gs o r).1.experience_gained = 0 ∧
    (simulate_delivery gs o r).2 = gs := by
  have hev := process_events_of_rolls_none gs o r h
    (o.base_fee + o.weather_bonus + o.peak_hour_bonus)
  simp [simulate_delivery, hev]

/-- Claim C3 witness: the accident branch at a concrete rainy-day input. -/
theorem C3_accident_witness :
    (simulate_delivery rainy_game_state rainy_order
      { rainy_rolls with accident_u := 0 }).1.success = false ∧
    (simulate_delivery rainy_game_state rainy_order
      { rainy_rolls with accident_u := 0 }).1.earnings = 0 ∧
    (simulate_delivery rainy_game_state rainy_order
      { rainy_rolls with accident_u := 0 }).1.tip = 0 ∧
    (simulate_delivery rainy_game_state rainy_order
      { rainy_rolls with accident_u := 0 }).1.experience_gained = 0 ∧
    (simulate_delivery rainy_game_state rainy_order
      { rainy_rolls with accident_u := 0 }).2 = rainy_game_state :=
  C3_accident_short_circuit rainy_game_state rainy_order
    { rainy_rolls with accident_u := 0 } (by norm_num)

/-- Claim C1: in rainy weather with no rain cover, when the food-damage event
fires (and nothing else does) the resolver appends the event with cost half
the base fee, yet the final earnings equal the full base fee plus bonuses
(13 = 10 + 3): the 0.5 × base-fee reduction the event carries is never
deducted, because the dispatch loop only subtracts the cost of events tagged
equipment_damage while this event is tagged food_damage. -/
theorem C1_food_damage_cost_never_deducted :
    (simulate_delivery rainy_game_state rainy_order rainy_rolls).1.events =
      [{ etype := .food_damage, cost := 5 }] ∧
    (simulate_delivery rainy_game_state rainy_order rainy_rolls).1.success = true ∧
    (simulate_delivery rainy_game_state rainy_order rainy_rolls).1.earnings = 13 := by
  norm_num [simulate_delivery, handle_random_events, process_delivery_events,
    rainy_game_state, rainy_order, rainy_rolls, round2, calculate_experience]

/-- Claim C7 counterexample: delivery resolution does mutate the player
state.  At a concrete input with no complaint, the resolver itself increments
the credit score and the five-star counter, so the returned state differs
from the input state. -/
theorem C7_resolution_mutates_state :
    (simulate_delivery rainy_game_state rainy_order rainy_rolls).2.attributes.credit_score
        = 101 ∧
    rainy_game_state.attributes.credit_score = 100 ∧
    (simulate_delivery rainy_game_state rainy_order rainy_rolls).2.stats.five_star_ratings
        = 1 ∧
    rainy_game_state.stats.five_star_ratings = 0 ∧
    (simulate_delivery rainy_game_state rainy_order rainy_rolls).2 ≠ rainy_game_state := by
  refine ⟨?_, ?_, ?_, ?_, ?_⟩
  · norm_num [simulate_delivery, handle_random_events, process_delivery_events,
      rainy_game_state, rainy_order, rainy_rolls]
  · norm_num [rainy_game_state]
  · norm_num [simulate_delivery, handle_random_events, process_delivery_events,
      rainy_game_state, rainy_order, rainy_rolls]
  · norm_num [rainy_game_state]
  · intro hcontra
    have h := congrArg (fun s => s.attributes.credit_score) hcontra
    norm_num [simulate_delivery, handle_random_events, process_delivery_events,
      rainy_game_state, rainy_order, rainy_rolls] at h

/-- Helper: the caller start_delivery credits the earnings of a successful
result to the delivery-coin balance and leaves it unchanged otherwise. -/
theorem start_delivery_apply_coins (s : GameState) (res : DeliveryResult) :
    (start_delivery_apply s res).finances.delivery_coins =
      s.finances.delivery_coins + (if res.success = true then res.earnings else 0) := by
  unfold start_delivery_apply
  by_cases hs : res.success = true <;>
    by_cases he : 100 ≤ s.attributes.experience + res.experience_gained <;>
      simp [hs, he]

/-- Helper: the caller start_delivery increments the level exactly when a
successful result pushes the experience to at least 100. -/
theorem start_delivery_apply_level (s : GameState) (res : DeliveryResult) :
    (start_delivery_apply s res).attributes.level =
      if res.success = true ∧ 100 ≤ s.attributes.experience + res.experience_gained
      then s.attributes.level + 1 else s.attributes.level := by
  unfold start_delivery_apply
  by_cases hs : res.success = true <;>
    by_cases he : 100 ≤ s.attributes.experience + res.experience_gained <;>
      simp [hs, he]

/-- Claim C7 (amended): delivery resolution returns the earnings and
experience deltas in its result and leaves finances, experience and level to
the caller — the returned state is either the input state unchanged, or
differs from it in exactly the credit score (complaint: −5) or in exactly the
credit score and the five-star counter (no complaint: +1 / +1) — while the
caller start_delivery applies earnings to the balance and experience with the
every-100 level-up.  So resolution does mutate PlayerState, but only through
its credit score and five-star-rating fields. -/
theorem C7_resolution_frame (gs : GameState) (o : Order) (r : DeliveryRolls) :
    ((simulate_delivery gs o r).2 = gs ∨
     (simulate_delivery gs o r).2 =
       { gs with attributes :=
           { gs.attributes with credit_score := gs.attributes.credit_score - 5 } } ∨
     (simulate_delivery gs o r).2 =
       { gs with
           attributes := { gs.attributes with credit_score := gs.attributes.credit_score + 1 },
           stats := { gs.stats with five_star_ratings := gs.stats.five_star_ratings + 1 } }) ∧
    ((start_delivery_apply (simulate_delivery gs o r).2
        (simulate_delivery gs o r).1).finances.delivery_coins =
      (simulate_delivery gs o r).2.finances.delivery_coins +
        (if (simulate_delivery gs o r).1.success = true
         then (simulate_delivery gs o r).1.earnings else 0)) ∧
    ((start_delivery_apply (simulate_delivery gs o r).2
        (simulate_delivery gs o r).1).attributes.level =
      if (simulate_delivery gs o r).1.success = true ∧
         100 ≤ (simulate_delivery gs o r).2.attributes.experience +
           (simulate_delivery gs o r).1.experience_gained
      then (simulate_delivery gs o r).2.attributes.level + 1
      else (simulate_delivery gs o r).2.attributes.level) := by
  refine ⟨?_, start_delivery_apply_coins _ _, start_delivery_apply_level _ _⟩
  rcases hp : process_delivery_events (handle_random_events gs o r)
      (o.base_fee + o.weather_bonus + o.peak_hour_bonus) with _ | t
  · left
    simp [simulate_delivery, hp]
  · by_cases hc : r.complaint_u < (if 5 < gs.attributes.emotional_intelligence
        then o.complaint_probability * (4/5) else o.complaint_probability)
    · right; left
      simp [simulate_delivery, hp, hc]
    · right; right
      simp [simulate_delivery, hp, hc]

/-! ## Claims about the investment portfolio -/

/-- Claim C5: on a margin-call check a position is force-liquidated — sold in
full at its current price through the sell path, with a sell record and a
distinct liquidation record appended — exactly when its leverage exceeds 1
and its unrealized loss fraction reaches the 0.30 threshold; a position with
leverage 1 is never liquidated, whatever its loss. -/
theorem C5_margin_call_criterion (p : StockPosition) (c : ℚ) (h : List TransactionRecord) :
    margin_call_threshold = 3/10 ∧
    check_margin_call
        { stock_positions := [p], delivery_coins := c, transaction_history := h } =
      (if 1 < p.leverage ∧ margin_call_threshold ≤ -p.profit_loss_percent / 100 then
        { stock_positions := [],
          delivery_coins := c + p.shares * p.current_price * p.leverage,
          transaction_history := h ++
            [{ action := "sell", symbol := p.symbol, shares := p.shares,
               price := p.current_price, leverage := p.leverage,
               revenue := p.shares * p.current_price * p.leverage,
               profit := (p.current_price - p.avg_cost) * p.shares * p.leverage },
             { action := "liquidation", symbol := p.symbol, shares := p.shares,
               price := p.current_price }] }
       else { stock_positions := [p], delivery_coins := c, transaction_history := h }) ∧
    check_margin_call
        { stock_positions := [{ p with leverage := 1 }], delivery_coins := c,
          transaction_history := h } =
      { stock_positions := [{ p with leverage := 1 }], delivery_coins := c,
        transaction_history := h } := by
  refine ⟨rfl, ?_, ?_⟩
  · unfold check_margin_call
    simp only [List.foldl_cons, List.foldl_nil]
    split_ifs with hcond
    · unfold force_liquidation sell_stock find_position remove_position
      simp
    · rfl
  · unfold check_margin_call
    simp only [List.foldl_cons, List.foldl_nil]
    rw [if_neg]
    simp

/-- Helper: looking up a symbol after replacing the entry of that symbol finds the
replacement (and still fails when the symbol was absent). -/
theorem find_position_set (positions : List StockPosition) (symbol : String)
    (q : StockPosition) (hq : q.symbol = symbol) :
    find_position (set_position positions symbol q) symbol =
      (find_position positions symbol).map (fun _ => q) := by
  unfold find_position set_position
  induction positions with
  | nil => simp
  | cons a l ih =>
    by_cases ha : a.symbol = symbol
    · simp [ha, hq]
    · simp [ha, ih]

/-- Claim C6: buying shares of a symbol with no existing position (with
sufficient balance) and then selling the same number of shares at the same
unchanged price succeeds, realizes a profit of exactly zero, removes the
position so the portfolio positions return to their pre-trade state, and —
when the leverage is 1 — restores the delivery-coin balance exactly. -/
theorem C6_buy_sell_round_trip (pf : InvestmentPortfolio) (symbol : String)
    (shares : ℕ) (price leverage : ℚ)
    (hfresh : find_position pf.stock_positions symbol = none)
    (hlev0 : 0 < leverage) (hlev : leverage ≤ max_leverage)
    (hfunds : (shares : ℚ) * price / leverage ≤ pf.delivery_coins) :
    (buy_stock pf symbol shares price leverage).2 = true ∧
    (sell_stock (buy_stock pf symbol shares price leverage).1 symbol shares price).2 =
      some 0 ∧
    (sell_stock (buy_stock pf symbol shares price leverage).1 symbol shares
        price).1.stock_positions = pf.stock_positions ∧
    (leverage = 1 →
      (sell_stock (buy_stock pf symbol shares price leverage).1 symbol shares
          price).1.delivery_coins = pf.delivery_coins) := by
  unfold find_position at hfresh
  have h1 : ¬ max_leverage < leverage := not_lt.mpr hlev
  have h2 : ¬ pf.delivery_coins < (shares : ℚ) * price / leverage := not_lt.mpr hfunds
  have hbuy : buy_stock pf symbol shares price leverage =
      ({ stock_positions := pf.stock_positions ++
           [{ symbol := symbol, shares := shares, avg_cost := price,
              current_price := price, leverage := leverage }],
         delivery_coins := pf.delivery_coins - (shares : ℚ) * price / leverage,
         transaction_history := pf.transaction_history ++
           [{ action := "buy", symbol := symbol, shares := shares, price := price,
              leverage := leverage, cost := (shares : ℚ) * price / leverage }] }, true) := by
    unfold buy_stock find_position
    rw [if_neg h1, if_neg h2, hfresh]
  have hfind2 : find_position (pf.stock_positions ++
      [{ symbol := symbol, shares := shares, avg_cost := price,
         current_price := price, leverage := leverage }]) symbol =
      some { symbol := symbol, shares := shares, avg_cost := price,
             current_price := price, leverage := leverage } := by
    unfold find_position
    rw [List.find?_append, hfresh]
    simp
  have hrm : remove_position (pf.stock_positions ++
      [{ symbol := symbol, shares := shares, avg_cost := price,
         current_price := price, leverage := leverage }]) symbol =
      pf.stock_positions := by
    unfold remove_position
    rw [List.filter_append]
    have hkeep : pf.stock_positions.filter (fun p => decide (¬ p.symbol = symbol)) =
        pf.stock_positions := by
      refine List.filter_eq_self.mpr ?_
      intro a ha
      simpa using List.find?_eq_none.mp hfresh a ha
    rw [hkeep]
    simp
  have hbuy1 : (buy_stock pf symbol shares price leverage).1 =
      { stock_positions := pf.stock_positions ++
          [{ symbol := symbol, shares := shares, avg_cost := price,
             current_price := price, leverage := leverage }],
        delivery_coins := pf.delivery_coins - (shares : ℚ) * price / leverage,
        transaction_history := pf.transaction_history ++
          [{ action := "buy", symbol := symbol, shares := shares, price := price,
             leverage := leverage, cost := (shares : ℚ) * price / leverage }] } := by
    rw [hbuy]
  refine ⟨by rw [hbuy], ?_, ?_, ?_⟩
  · unfold sell_stock
    simp only [hbuy1]
    rw [hfind2]
    simp [round2]
  · unfold sell_stock
    simp only [hbuy1]
    rw [hfind2]
    simp [hrm]
  · intro hl1
    subst hl1
    unfold sell_stock
    simp only [hbuy1]
    rw [hfind2]
    simp [hrm]

/-- Claim C6 witness: the round trip at an empty portfolio with balance 100,
buying and selling 10 shares at price 5 with leverage 1. -/
theorem C6_round_trip_witness :
    (buy_stock empty_portfolio "000001" 10 5 1).2 = true ∧
    (sell_stock (buy_stock empty_portfolio "000001" 10 5 1).1 "000001" 10 5).2 =
      some 0 ∧
    (sell_stock (buy_stock empty_portfolio "000001" 10 5 1).1 "000001" 10
        5).1.stock_positions = empty_portfolio.stock_positions ∧
    (sell_stock (buy_stock empty_portfolio "000001" 10 5 1).1 "000001" 10
        5).1.delivery_coins = empty_portfolio.delivery_coins := by
  have h := C6_buy_sell_round_trip empty_portfolio
    "000001" 10 5 1 rfl (by norm_num)
    (by norm_num [max_leverage])
    (by norm_num [empty_portfolio])
  exact ⟨h.1, h.2.1, h.2.2.1, h.2.2.2 rfl⟩

/-- Claim C10: buying a symbol that already has a position merges into it —
shares-weighted average cost, summed shares — while the stored position
leverage stays what it was (the leverage argument of the new buy is ignored
for the merged position), even though the cash debited for the new shares is
computed from the new leverage argument as shares × price / leverage. -/
theorem C10_buy_merge_keeps_leverage (pf : InvestmentPortfolio) (symbol : String)
    (shares : ℕ) (price leverage : ℚ) (position : StockPosition)
    (hpos : find_position pf.stock_positions symbol = some position)
    (hlev : leverage ≤ max_leverage)
    (hfunds : (shares : ℚ) * price / leverage ≤ pf.delivery_coins) :
    (buy_stock pf symbol shares price leverage).2 = true ∧
    find_position (buy_stock pf symbol shares price leverage).1.stock_positions symbol =
      some { position with
              avg_cost := (position.avg_cost * position.shares + price * shares) /
                (position.shares + shares),
              shares := position.shares + shares } ∧
    ((find_position (buy_stock pf symbol shares price
        leverage).1.stock_positions symbol).map StockPosition.leverage =
      some position.leverage) ∧
    (buy_stock pf symbol shares price leverage).1.delivery_coins =
      pf.delivery_coins - (shares : ℚ) * price / leverage := by
  have hsym : position.symbol = symbol := by
    have hpos2 : pf.stock_positions.find? (fun p => decide (p.symbol = symbol)) =
        some position := by
      simpa [find_position] using hpos
    have hfs := List.find?_some hpos2
    simpa using hfs
  have h1 : ¬ max_leverage < leverage := not_lt.mpr hlev
  have h2 : ¬ pf.delivery_coins < (shares : ℚ) * price / leverage := not_lt.mpr hfunds
  have hbuy : buy_stock pf symbol shares price leverage =
      ({ stock_positions := set_position pf.stock_positions symbol
           { position with
               avg_cost := (position.avg_cost * position.shares + price * shares) /
                 (position.shares + shares),
               shares := position.shares + shares },
         delivery_coins := pf.delivery_coins - (shares : ℚ) * price / leverage,
         transaction_history := pf.transaction_history ++
           [{ action := "buy", symbol := symbol, shares := shares, price := price,
              leverage := leverage, cost := (shares : ℚ) * price / leverage }] }, true) := by
    unfold buy_stock
    rw [if_neg h1, if_neg h2, hpos]
  rw [hbuy]
  refine ⟨rfl, ?_, ?_, rfl⟩
  · rw [find_position_set _ _ _ (by simpa using hsym), hpos]
    rfl
  · rw [find_position_set _ _ _ (by simpa using hsym), hpos]
    rfl

/-- Claim C10 witness: merging a second buy of 10 shares at 200 with
leverage 5 into an existing 10-share position bought at 100 with leverage 3
keeps leverage 3, yields average cost 150 over 20 shares, and debits
10 × 200 / 5 = 400. -/
theorem C10_merge_witness :
    (buy_stock portfolio_a "000001" 10 200 5).2 = true ∧
    find_position (buy_stock portfolio_a "000001" 10 200
        5).1.stock_positions "000001" =
      some { position_a with
              avg_cost := (position_a.avg_cost * position_a.shares + 200 * 10) /
                (position_a.shares + 10),
              shares := position_a.shares + 10 } ∧
    ((find_position (buy_stock portfolio_a "000001" 10 200
        5).1.stock_positions "000001").map StockPosition.leverage =
      some position_a.leverage) ∧
    (buy_stock portfolio_a "000001" 10 200 5).1.delivery_coins =
      portfolio_a.delivery_coins - (10 : ℚ) * 200 / 5 := by
  have h := C10_buy_merge_keeps_leverage portfolio_a "000001" 10 200 5 position_a
    (by simp [portfolio_a, position_a, find_position]) (by norm_num [max_leverage])
    (by norm_num [portfolio_a])
  exact ⟨h.1, h.2.1, h.2.2.1, h.2.2.2⟩
